import Mathlib

/-!
Verification of the Encore API gateway core
(`src/runtimes/core/src/api/gateway/mod.rs`).

The Rust module is shallowly embedded below: HTTP headers are lists of
name/value string pairs (pingora stores header names case-preserved but
matches them case-insensitively, which we model with a lowercase-comparing
equality), `http::Uri` is a record of optional scheme, authority and
path-and-query, and each proxy lifecycle hook becomes a pure function.
Fallible Rust code returns `Except`.  External collaborators that the
module only calls through narrow interfaces (the CORS policy evaluator,
the health responder, the service registry, the authenticator, span-id
generation) are fields of the `Gateway`/`ServiceRegistry` records or
explicit parameters, exactly as wide as the contract the source uses.
-/

/-- An HTTP header occurrence: name and value. -/
abbrev Header := String × String

/-- ASCII lowercasing, character by character (header names are ASCII). -/
def to_lower (s : String) : String := String.mk (s.data.map Char.toLower)

/-- Case-insensitive header-name comparison, as performed by the
`http::HeaderMap` underlying pingora's request/response headers. -/
def nameEq (a b : String) : Bool := decide (to_lower a = to_lower b)

/-- All values of header `n`, in order (`HeaderMap::get_all`). -/
def getAll (l : List Header) (n : String) : List String :=
  (l.filter (fun h => nameEq h.1 n)).map (fun h => h.2)

/-- Remove every occurrence of header `n` (`remove_header`). -/
def remove_header (l : List Header) (n : String) : List Header :=
  l.filter (fun h => !nameEq h.1 n)

/-- Replace all occurrences of header `n` with the single value `v`
(`insert_header`). -/
def insert_header (l : List Header) (n v : String) : List Header :=
  l.filter (fun h => !nameEq h.1 n) ++ [(n, v)]

/-- First value of header `n`, if any. -/
def find_header (l : List Header) (n : String) : Option String :=
  (l.find? (fun h => nameEq h.1 n)).map (fun h => h.2)

/-- Is `c` a token character allowed in an HTTP header name
(RFC 7230 tchar, as enforced by `http::HeaderName`)?  The punctuation
set is given by code point to stay plain. -/
def header_name_char (c : Char) : Bool :=
  c.isAlphanum ||
    [33, 35, 36, 37, 38, 39, 42, 43, 45, 46, 94, 95, 96, 124, 126].contains c.toNat

/-- Valid HTTP header name (nonempty, all tchar), per `http::HeaderName`. -/
def header_name_ok (n : String) : Bool :=
  !n.isEmpty && n.data.all header_name_char

/-- Valid HTTP header value character: horizontal tab or any byte from
0x20 up, except DEL, per `http::HeaderValue`. -/
def header_value_char (c : Char) : Bool :=
  c.toNat == 9 || (Nat.ble 32 c.toNat && !(c.toNat == 127))

/-- Valid HTTP header value, per `http::HeaderValue`. -/
def header_value_ok (v : String) : Bool := v.data.all header_value_char

/-- A smuggled header entry is appendable iff pingora's `append_header`
accepts its name and value. -/
def header_pair_ok (p : Header) : Bool := header_name_ok p.1 && header_value_ok p.2

/-- `http::Uri`: optional scheme, authority, and path-and-query part. -/
structure Uri where
  scheme : Option String
  authority : Option String
  path_and_query : Option String
deriving DecidableEq, Repr

/-- `Uri::path`: the path-and-query up to the query separator; `/` when
absent or empty. -/
def Uri.path (u : Uri) : String :=
  match u.path_and_query with
  | none => "/"
  | some pq =>
    let p := String.mk (pq.data.takeWhile (fun c => c ≠ '?'))
    if p.isEmpty then "/" else p

/-- pingora `RequestHeader`: method, URI and headers. -/
structure RequestHeader where
  method : String
  uri : Uri
  headers : List Header
deriving DecidableEq, Repr

/-- `RequestHeader::set_uri`. -/
def RequestHeader.set_uri (r : RequestHeader) (u : Uri) : RequestHeader :=
  { r with uri := u }

/-- pingora `ResponseHeader`: status and headers. -/
structure ResponseHeader where
  status : Nat
  headers : List Header
deriving DecidableEq, Repr

/-! ## base64url (no padding) decoding

Model of `base64::engine::general_purpose::URL_SAFE_NO_PAD.decode`: the
URL-safe alphabet, no padding accepted, a final quantum of one symbol is
invalid, and non-zero trailing bits in the final symbol are rejected
(the engine's default canonical-encoding check). -/

/-- Value of one symbol of the URL-safe base64 alphabet. -/
def b64_val (c : Char) : Option Nat :=
  let n := c.toNat
  if 65 ≤ n ∧ n ≤ 90 then some (n - 65)
  else if 97 ≤ n ∧ n ≤ 122 then some (n - 71)
  else if 48 ≤ n ∧ n ≤ 57 then some (n + 4)
  else if n = 45 then some 62
  else if n = 95 then some 63
  else none

/-- Decode a list of base64url symbols into bytes. -/
def b64_chunks : List Char → Option (List Nat)
  | [] => some []
  | [_] => none
  | [a, b] => do
    let va ← b64_val a
    let vb ← b64_val b
    if vb % 16 = 0 then some [va * 4 + vb / 16] else none
  | [a, b, c] => do
    let va ← b64_val a
    let vb ← b64_val b
    let vc ← b64_val c
    if vc % 4 = 0 then some [va * 4 + vb / 16, (vb % 16) * 16 + vc / 4] else none
  | a :: b :: c :: d :: rest => do
    let va ← b64_val a
    let vb ← b64_val b
    let vc ← b64_val c
    let vd ← b64_val d
    let tail ← b64_chunks rest
    some ([va * 4 + vb / 16, (vb % 16) * 16 + vc / 4, (vc % 4) * 64 + vd] ++ tail)

/-- `URL_SAFE_NO_PAD.decode` on a string. -/
def base64url_decode (s : String) : Option (List Nat) := b64_chunks s.data

/-! ## Flat string-to-string JSON objects

Model of `serde_json::from_slice::<HashMap<String, String>>`: the input
bytes must be valid UTF-8, the value must be one complete object with
string keys and string values followed only by whitespace, strings
accept any unescaped character from 0x20 up, the single-character
escapes, and `\uXXXX` escapes (with surrogate pairs, lone surrogates
rejected), and a duplicate key overwrites the earlier entry
(`HashMap::insert` keeps only the last value).  Rust then iterates the
`HashMap` in unspecified order; the model fixes the order to first
occurrence of each key. -/

/-- Is the byte a UTF-8 continuation byte (0x80 to 0xBF)? -/
def utf8_cont (b : Nat) : Bool := Nat.ble 128 b && Nat.ble b 191

/-- Decode a byte list as UTF-8 (`str::from_utf8` semantics: overlong
encodings, surrogates, and values above 0x10FFFF are rejected). -/
def utf8_decode : List Nat → Option (List Char)
  | [] => some []
  | b :: rest =>
    if b < 128 then do
      let tail ← utf8_decode rest
      pure (Char.ofNat b :: tail)
    else if 194 ≤ b ∧ b ≤ 223 then
      match rest with
      | [] => none
      | b2 :: rest2 =>
        if utf8_cont b2 then do
          let tail ← utf8_decode rest2
          pure (Char.ofNat ((b - 192) * 64 + (b2 - 128)) :: tail)
        else none
    else if 224 ≤ b ∧ b ≤ 239 then
      match rest with
      | b2 :: b3 :: rest2 =>
        let lo2 := if b = 224 then 160 else 128
        let hi2 := if b = 237 then 159 else 191
        if (lo2 ≤ b2 ∧ b2 ≤ hi2) ∧ utf8_cont b3 = true then do
          let tail ← utf8_decode rest2
          pure (Char.ofNat ((b - 224) * 4096 + (b2 - 128) * 64 + (b3 - 128)) :: tail)
        else none
      | _ => none
    else if 240 ≤ b ∧ b ≤ 244 then
      match rest with
      | b2 :: b3 :: b4 :: rest2 =>
        let lo2 := if b = 240 then 144 else 128
        let hi2 := if b = 244 then 143 else 191
        if (lo2 ≤ b2 ∧ b2 ≤ hi2) ∧ utf8_cont b3 = true ∧ utf8_cont b4 = true then do
          let tail ← utf8_decode rest2
          pure (Char.ofNat
            ((b - 240) * 262144 + (b2 - 128) * 4096 + (b3 - 128) * 64 + (b4 - 128)) :: tail)
        else none
      | _ => none
    else none

/-- JSON whitespace character. -/
def json_ws (c : Char) : Bool :=
  c.toNat == 32 || c.toNat == 9 || c.toNat == 10 || c.toNat == 13

/-- Drop leading JSON whitespace. -/
def skip_ws : List Char → List Char
  | [] => []
  | c :: rest => if json_ws c then skip_ws rest else c :: rest

/-- Value of a hexadecimal digit. -/
def hex_digit (c : Char) : Option Nat :=
  let n := c.toNat
  if 48 ≤ n ∧ n ≤ 57 then some (n - 48)
  else if 97 ≤ n ∧ n ≤ 102 then some (n - 87)
  else if 65 ≤ n ∧ n ≤ 70 then some (n - 55)
  else none

/-- Parse the body of a JSON string (after the opening quote), returning
the string and the rest of the input.  Handles the single-character
escapes and `\uXXXX` (a high surrogate must be followed by a low one;
lone surrogates are errors, as in serde_json when the target is a
`String`). -/
def parse_json_string_body : List Char → List Char → Option (String × List Char)
  | [], _ => none
  | c :: rest, acc =>
    if c.toNat = 34 then some (String.mk acc.reverse, rest)
    else if c.toNat = 92 then
      match rest with
      | [] => none
      | e :: rest2 =>
        if e.toNat = 34 then parse_json_string_body rest2 (Char.ofNat 34 :: acc)
        else if e.toNat = 92 then parse_json_string_body rest2 (Char.ofNat 92 :: acc)
        else if e.toNat = 47 then parse_json_string_body rest2 (Char.ofNat 47 :: acc)
        else if e.toNat = 98 then parse_json_string_body rest2 (Char.ofNat 8 :: acc)
        else if e.toNat = 102 then parse_json_string_body rest2 (Char.ofNat 12 :: acc)
        else if e.toNat = 110 then parse_json_string_body rest2 (Char.ofNat 10 :: acc)
        else if e.toNat = 114 then parse_json_string_body rest2 (Char.ofNat 13 :: acc)
        else if e.toNat = 116 then parse_json_string_body rest2 (Char.ofNat 9 :: acc)
        else if e.toNat = 117 then
          match rest2 with
          | h1 :: h2 :: h3 :: h4 :: rest3 => do
            let v1 ← hex_digit h1
            let v2 ← hex_digit h2
            let v3 ← hex_digit h3
            let v4 ← hex_digit h4
            let v := v1 * 4096 + v2 * 256 + v3 * 16 + v4
            if 55296 ≤ v ∧ v ≤ 56319 then
              match rest3 with
              | e2 :: u2 :: g1 :: g2 :: g3 :: g4 :: rest4 =>
                if e2.toNat = 92 ∧ u2.toNat = 117 then do
                  let w1 ← hex_digit g1
                  let w2 ← hex_digit g2
                  let w3 ← hex_digit g3
                  let w4 ← hex_digit g4
                  let w := w1 * 4096 + w2 * 256 + w3 * 16 + w4
                  if 56320 ≤ w ∧ w ≤ 57343 then
                    parse_json_string_body rest4
                      (Char.ofNat (65536 + (v - 55296) * 1024 + (w - 56320)) :: acc)
                  else none
                else none
              | _ => none
            else if 56320 ≤ v ∧ v ≤ 57343 then none
            else parse_json_string_body rest3 (Char.ofNat v :: acc)
          | _ => none
        else none
    else if c.toNat < 32 then none
    else parse_json_string_body rest (c :: acc)

/-- `HashMap::insert` on the association list: a duplicate key keeps its
first position but takes the last value; a new key is appended. -/
def upsert (acc : List (String × String)) (k v : String) : List (String × String) :=
  if acc.any (fun p => decide (p.1 = k)) then
    acc.map (fun p => if p.1 = k then (k, v) else p)
  else acc ++ [(k, v)]

/-- Parse the members of a JSON object, positioned right before a key
string; returns the members and the input after the closing brace. -/
def parse_members (fuel : Nat) (cs : List Char) (acc : List (String × String)) :
    Option (List (String × String) × List Char) :=
  match fuel with
  | 0 => none
  | fuel + 1 =>
    match skip_ws cs with
    | [] => none
    | c :: rest =>
      if c.toNat = 34 then do
        let (k, rest1) ← parse_json_string_body rest []
        match skip_ws rest1 with
        | [] => none
        | c2 :: rest2 =>
          if c2.toNat = 58 then
            match skip_ws rest2 with
            | [] => none
            | c3 :: rest3 =>
              if c3.toNat = 34 then do
                let (v, rest4) ← parse_json_string_body rest3 []
                match skip_ws rest4 with
                | [] => none
                | c4 :: rest5 =>
                  if c4.toNat = 44 then parse_members fuel rest5 (upsert acc k v)
                  else if c4.toNat = 125 then some (upsert acc k v, rest5)
                  else none
              else none
          else none
      else none

/-- Parse a complete flat string-to-string JSON object from bytes
(`serde_json::from_slice` into the `AuthHeaders` map). -/
def parse_auth_headers (bs : List Nat) : Option (List (String × String)) :=
  match utf8_decode bs with
  | none => none
  | some cs =>
    match skip_ws cs with
    | [] => none
    | c :: rest =>
      if c.toNat = 123 then
        match skip_ws rest with
        | [] => none
        | c2 :: rest2 =>
          if c2.toNat = 125 then
            if (skip_ws rest2).isEmpty then some [] else none
          else do
            let (pairs, rest3) ← parse_members (cs.length + 1) rest []
            if (skip_ws rest3).isEmpty then some pairs else none
      else none

/-! ## WebSocket header smuggling -/

/-- The `http::header::SEC_WEBSOCKET_PROTOCOL` header name. -/
def SEC_WEBSOCKET_PROTOCOL : String := "sec-websocket-protocol"

/-- The reserved protocol-token marker for smuggled headers. -/
def AUTH_DATA_PREFIX : String := "encore.dev.auth_data."

/-- Split a character list at every comma (Rust `str::split(",")`: an
empty input yields one empty piece, adjacent commas yield empty
pieces). -/
def split_go : List Char → List Char → List (List Char)
  | [], cur => [cur.reverse]
  | c :: rest, cur =>
    if c = ',' then cur.reverse :: split_go rest [] else split_go rest (c :: cur)

/-- Rust `str::split(",")` on a string. -/
def split_commas (s : String) : List String := (split_go s.data []).map String.mk

/-- Rust `str::trim`: drop leading and trailing whitespace (ASCII
whitespace suffices for header values). -/
def trim_ascii (s : String) : String :=
  String.mk (((s.data.dropWhile Char.isWhitespace).reverse.dropWhile
    Char.isWhitespace).reverse)

/-- Rust `str::starts_with` on strings. -/
def starts_with_go : List Char → List Char → Bool
  | _, [] => true
  | [], _ :: _ => false
  | c :: cs, d :: ds => c = d && starts_with_go cs ds

/-- Rust `str::starts_with` on strings. -/
def starts_with_str (s p : String) : Bool := starts_with_go s.data p.data

/-- Drop the first `n` characters (both the marker and the tokens are
ASCII, so characters coincide with bytes; models
`str::strip_prefix` once the marker is known to be a prefix). -/
def drop_chars (s : String) (n : Nat) : String := String.mk (s.data.drop n)

/-- Split a `Sec-WebSocket-Protocol` value on commas and trim each token
(`header_value.to_str()?.split(",")` followed by `protocol.trim()`). -/
def split_and_trim (v : String) : List String :=
  (split_commas v).map trim_ascii

/-- pingora `RequestHeader::append_header`: append the occurrence,
keeping existing ones; fails when the name or value is invalid. -/
def append_header (r : RequestHeader) (n v : String) : Except String RequestHeader :=
  if header_name_ok n && header_value_ok v then
    .ok { r with headers := r.headers ++ [(n, v)] }
  else .error "invalid header name or value"

/-- Append every smuggled entry (the `for (name, value) in auth_data.0`
loop); the first invalid entry fails the whole step. -/
def append_smuggled (r : RequestHeader) : List (String × String) → Except String RequestHeader
  | [] => .ok r
  | (n, v) :: rest =>
    match append_header r n v with
    | .error m => .error m
    | .ok r2 => append_smuggled r2 rest

/-- The `for protocol in ...` loop: tokens with the reserved marker are
decoded and appended as headers, the rest are collected in order. -/
def process_protocols (r : RequestHeader) (filtered : List String) :
    List String → Except String (RequestHeader × List String)
  | [] => .ok (r, filtered)
  | protocol :: rest =>
    if starts_with_str protocol AUTH_DATA_PREFIX then
      match base64url_decode (drop_chars protocol ( AUTH_DATA_PREFIX.length)) with
      | none => .error "invalid base64 in smuggled protocol token"
      | some bytes =>
        match parse_auth_headers bytes with
        | none => .error "invalid smuggled header json"
        | some pairs =>
          match append_smuggled r pairs with
          | .error m => .error m
          | .ok r2 => process_protocols r2 filtered rest
    else
      process_protocols r (filtered ++ [protocol]) rest

/-- Is the character visible ASCII in the sense of
`http::HeaderValue::to_str` (horizontal tab or 0x20 to 0x7e)? -/
def visible_ascii_char (c : Char) : Bool :=
  c.toNat == 9 || (Nat.ble 32 c.toNat && Nat.ble c.toNat 126)

/-- `HeaderValue::to_str` succeeds exactly on visible-ASCII values. -/
def header_value_to_str_ok (v : String) : Bool := v.data.all visible_ascii_char

/-- Process one original `Sec-WebSocket-Protocol` value: convert it to
a string (`header_value.to_str()?`, which fails the whole rewrite on
any non-visible-ASCII byte), run the token loop, then re-attach the
remaining genuine tokens comma-joined, if any. -/
def process_header_value (r : RequestHeader) (v : String) : Except String RequestHeader :=
  if header_value_to_str_ok v then
    match process_protocols r [] (split_and_trim v) with
    | .error m => .error m
    | .ok (r2, filtered) =>
      if filtered.isEmpty then .ok r2
      else append_header r2 SEC_WEBSOCKET_PROTOCOL (String.intercalate ", " filtered)
  else .error "header value is not visible ascii"

/-- The `for header_value in headers` loop. -/
def process_header_values (r : RequestHeader) : List String → Except String RequestHeader
  | [] => .ok r
  | v :: rest =>
    match process_header_value r v with
    | .error m => .error m
    | .ok r2 => process_header_values r2 rest

/-- `update_request_from_websocket_protocol`: collect all
`Sec-WebSocket-Protocol` occurrences; when none are present the request
is left untouched; otherwise remove them all and process each value. -/
def update_request_from_websocket_protocol (req : RequestHeader) :
    Except String RequestHeader :=
  if (getAll req.headers SEC_WEBSOCKET_PROTOCOL).isEmpty then .ok req
  else
    process_header_values
      { req with headers := remove_header req.headers SEC_WEBSOCKET_PROTOCOL }
      (getAll req.headers SEC_WEBSOCKET_PROTOCOL)

/-! ## pingora error model

`pingora::Error` as the gateway observes it: its `ErrorType` (the
variants the module matches on, plus a catch-all for every other pingora
variant), its `ErrorSource`, and its optional boxed cause, which the
module only ever downcasts to the structured API error type. -/

/-- pingora `ErrorType` as matched by the module; `Custom` stands for
every other variant. -/
inductive ErrorType where
  | HTTPStatus (code : Nat)
  | WriteError
  | ReadError
  | ConnectionClosed
  | InternalError
  | UnknownError
  | Custom (name : String)
deriving DecidableEq, Repr

/-- pingora `ErrorSource`. -/
inductive ErrorSource where
  | Upstream
  | Downstream
  | Internal
  | Unset
deriving DecidableEq, Repr

/-- Modelled from the spec: `crate::api::Error` (the StructuredApiError
of §3) is not part of the provided sources.  The spec describes it as "a
tagged error with a status-code class and a serializable payload"; we
model it as its HTTP status code (`err.code.status_code()`) together
with the JSON serialization of the payload (`serde_json::to_writer`
output), which is what `api_error_response` consumes. -/
structure ApiError where
  status : Nat
  payload : String
deriving DecidableEq, Repr

/-- The cause chained onto a pingora error: either the structured API
error the module downcasts to, or anything else. -/
inductive ErrorCause where
  | api (e : ApiError)
  | other_cause
deriving DecidableEq, Repr

/-- A pingora `Error` as observed by the failure hook. -/
structure PingoraError where
  etype : ErrorType
  esource : ErrorSource
  cause : Option ErrorCause
deriving DecidableEq, Repr

/-- `as_api_error`: downcast the cause to the structured API error. -/
def as_api_error (e : PingoraError) : Option ApiError :=
  match e.cause with
  | some (.api a) => some a
  | _ => none

/-! ## Call metadata and gateway state -/

/-- Modelled from the spec: `CallMeta` and `CallMeta::parse_without_caller`
from `crate::api::reqauth` are not part of the provided sources.  The
spec (§3) says CallMeta holds "parsed-or-synthesized trace identifiers
for the hop: trace id, optional parent span id ..., optional external
correlation id.  Derived from inbound headers."  We model it with one
inbound header per field; the exact header names are an internal
contract (§6), so representative names are used. -/
structure CallMeta where
  trace_id : String
  parent_span_id : Option String
  ext_correlation_id : Option String
deriving DecidableEq, Repr

/-- Modelled from the spec: parsing of the inbound call metadata headers
(trace id synthesized when absent, parent span id and correlation id
left absent when missing). -/
def CallMeta.parse_without_caller (l : List Header) : CallMeta :=
  { trace_id := (find_header l "x-encore-trace-id").getD "synthesized-trace-id",
    parent_span_id := find_header l "x-encore-parent-span-id",
    ext_correlation_id := find_header l "x-encore-correlation-id" }

/-- `Caller::Gateway { gateway }`. -/
inductive Caller where
  | gateway (name : String)
deriving DecidableEq, Repr

/-- Modelled from the spec: the service-to-service authentication method
(`svcauth`), defaulting to the no-op method when unconfigured (§4.2). -/
inductive SvcAuthMethod where
  | noop
  | custom_method (name : String)
deriving DecidableEq, Repr

/-- `CallDesc`: the outgoing call descriptor.  `parent_span` pairs the
trace id with the span id (`trace_id.with_span(sp)`). -/
structure CallDesc where
  caller : Caller
  parent_span : Option (String × String)
  parent_event_id : Option String
  ext_correlation_id : Option String
  auth_user_id : Option String
  auth_data : Option String
  svc_auth_method : SvcAuthMethod
deriving DecidableEq, Repr

/-- Modelled from the spec: the call-metadata headers `CallDesc::add_meta`
serializes onto the outgoing request (§6: trace id, parent span id,
correlation id, caller identity, and, if present, the authenticated
user id and opaque auth payload). -/
def meta_headers (desc : CallDesc) : List Header :=
  [("x-encore-meta-caller", match desc.caller with | .gateway n => "gateway:" ++ n)] ++
    (match desc.parent_span with
      | some (t, sp) => [("x-encore-meta-trace-id", t), ("x-encore-meta-span-id", sp)]
      | none => []) ++
    (match desc.ext_correlation_id with
      | some c => [("x-encore-meta-correlation-id", c)]
      | none => []) ++
    (match desc.auth_user_id with
      | some u => [("x-encore-meta-auth-uid", u)]
      | none => []) ++
    (match desc.auth_data with
      | some d => [("x-encore-meta-auth-data", d)]
      | none => [])

/-- Modelled from the spec: `CallDesc::add_meta` appends the serialized
call metadata to the outgoing request headers. -/
def CallDesc.add_meta (desc : CallDesc) (req : RequestHeader) : RequestHeader :=
  { req with headers := req.headers ++ meta_headers desc }

/-- The authenticator's verdict (`auth::AuthResponse`). -/
inductive AuthResponse where
  | authenticated (auth_uid : String) (auth_data : String)
  | anonymous

/-- The pluggable authenticator, an external collaborator: it sees the
rewritten request and the call metadata and may fail (§6). -/
structure Authenticator where
  authenticate : RequestHeader → CallMeta → Except String AuthResponse

/-- The service registry handle, an external collaborator (§6). -/
structure ServiceRegistry where
  service_base_url : String → Option String
  service_auth_method : String → Option SvcAuthMethod

/-- The CORS policy evaluator, an external collaborator: from the
inbound request headers it produces the CORS headers to add to a
response (`CorsHeadersConfig::apply`). -/
structure CorsHeadersConfig where
  headers_for : List Header → List Header

/-- `CorsHeadersConfig::apply` appends the computed CORS headers to the
response. -/
def CorsHeadersConfig.apply (cfg : CorsHeadersConfig) (req_headers : List Header)
    (resp : ResponseHeader) : ResponseHeader :=
  { resp with headers := resp.headers ++ cfg.headers_for req_headers }

/-- The gateway's shared immutable state (`Inner` plus
`SharedGatewayData`).  The health responder is represented by the
serialized JSON body it produces, and the router by an opaque routing
function (only consulted by `upstream_peer`, which no claim exercises
directly). -/
structure Gateway where
  name : String
  auth : Option Authenticator
  service_registry : ServiceRegistry
  router : String → String → Option String
  cors_config : CorsHeadersConfig
  healthz_body : String
  own_api_address : Option String

/-- `GatewayCtx`, the per-request context set by `upstream_peer`. -/
structure GatewayCtx where
  upstream_service_name : String
  upstream_base_path : String
  upstream_host : Option String

/-- Rust `str::trim_end_matches('/')`: remove every trailing slash. -/
def trim_end_slashes (s : String) : String :=
  String.mk ((s.data.reverse.dropWhile (fun c => c = '/')).reverse)

/-- `GatewayCtx::prepend_base_path`: keep scheme and authority, and set
the path-and-query to the base path with trailing slashes stripped
(`trim_end_matches('/')`) followed verbatim by the original
path-and-query (empty string when absent). -/
def GatewayCtx.prepend_base_path (ctx : GatewayCtx) (uri : Uri) : Uri :=
  { scheme := uri.scheme,
    authority := uri.authority,
    path_and_query :=
      some (trim_end_slashes ctx.upstream_base_path ++ (uri.path_and_query.getD "")) }

/-! ## Lifecycle hooks -/

/-- Outcome of the early-intercept hook: either a response was written
and the request is terminated (`Ok(true)` in pingora), or the request
proceeds to routing (`Ok(false)`). -/
inductive FilterOutcome where
  | handled (resp : ResponseHeader) (body : Option String)
  | pass
deriving DecidableEq, Repr

/-- `request_filter`: serve the reserved health-check path directly;
answer CORS preflight (`OPTIONS`) requests with a 200 carrying the CORS
headers and a zero-length body; let everything else through.  The
health-check response carries the serialized health status as JSON; its
content-length counts the body bytes. -/
def request_filter (gw : Gateway) (req : RequestHeader) : FilterOutcome :=
  if req.uri.path = "/__encore/healthz" then
    .handled
      { status := 200,
        headers := [("content-length", toString gw.healthz_body.length),
          ("content-type", "application/json")] }
      (some gw.healthz_body)
  else if req.method = "OPTIONS" then
    .handled
      { status := 200,
        headers := (gw.cors_config.apply req.headers { status := 200, headers := [] }).headers
          ++ [("content-length", "0")] }
      none
  else .pass

/-- `response_filter`: apply the CORS policy to the upstream response,
but only when the per-request context exists. -/
def response_filter (gw : Gateway) (ctx : Option GatewayCtx)
    (req_headers : List Header) (resp : ResponseHeader) : ResponseHeader :=
  match ctx with
  | some _ => gw.cors_config.apply req_headers resp
  | none => resp

/-- The first half of `upstream_request_filter` when the per-request
context exists: set the URI to the base-path-prepended one, and set the
Host header to the resolved upstream host when present (the source
notes this intentionally discards the original inbound Host). -/
def rewritten_request (gctx : GatewayCtx) (req : RequestHeader) : RequestHeader :=
  let req1 := req.set_uri (gctx.prepend_base_path req.uri)
  match gctx.upstream_host with
  | some host => { req1 with headers := insert_header req1.headers "host" host }
  | none => req1

/-- The second half of `upstream_request_filter`, from the
service-auth-method lookup on (the source runs it inline on the request
as it stands after the URI, Host and websocket rewrites): parse the
`CallMeta`, generate a span id when the parent span is absent, build
the `CallDesc`, run the authenticator if configured, and serialize the
descriptor onto the request. -/
def upstream_request_filter_tail (gw : Gateway) (gctx : GatewayCtx) (fresh_span : String)
    (req3 : RequestHeader) :
    Except PingoraError (RequestHeader × Option (CallMeta × CallDesc)) :=
  let svc_auth :=
    (gw.service_registry.service_auth_method gctx.upstream_service_name).getD .noop
  let m := CallMeta.parse_without_caller req3.headers
  let call_meta :=
    if m.parent_span_id.isNone then { m with parent_span_id := some fresh_span } else m
  let desc0 : CallDesc :=
    { caller := .gateway gw.name,
      parent_span := call_meta.parent_span_id.map (fun sp => (call_meta.trace_id, sp)),
      parent_event_id := none,
      ext_correlation_id := call_meta.ext_correlation_id,
      auth_user_id := none,
      auth_data := none,
      svc_auth_method := svc_auth }
  match gw.auth with
  | none => .ok (desc0.add_meta req3, some (m, desc0))
  | some a =>
    match a.authenticate req3 call_meta with
    | .error _ =>
      .error { etype := .InternalError, esource := .Unset, cause := some .other_cause }
    | .ok (.authenticated uid dat) =>
      let desc := { desc0 with auth_user_id := some uid, auth_data := some dat }
      .ok (desc.add_meta req3, some (m, desc))
    | .ok .anonymous => .ok (desc0.add_meta req3, some (m, desc0))

/-- `upstream_request_filter`.  `fresh_span` stands for the value
`model::SpanId::generate()` would produce.  For specification purposes
the model also returns, next to the rewritten request, the `CallMeta`
parsed from the request headers and the final `CallDesc` (in the source
these are locals consumed by `add_meta`); both are `none` when the
per-request context is absent and the hook does nothing.  Errors carry
the `ErrorType` and (per pingora's `Error::because`) an unset source and
an opaque cause. -/
def upstream_request_filter (gw : Gateway) (is_upgrade : Bool) (fresh_span : String)
    (ctx : Option GatewayCtx) (req : RequestHeader) :
    Except PingoraError (RequestHeader × Option (CallMeta × CallDesc)) :=
  match ctx with
  | none => .ok (req, none)
  | some gctx =>
    let req2 := rewritten_request gctx req
    match (if is_upgrade then update_request_from_websocket_protocol req2 else .ok req2) with
    | .error _ =>
      .error { etype := .UnknownError, esource := .Unset, cause := some .other_cause }
    | .ok req3 => upstream_request_filter_tail gw gctx fresh_span req3

/-! ## Failure hook -/

/-- pingora's server name constant (`SERVER_NAME`). -/
def SERVER_NAME : String := "Pingora"

/-- `api_error_response`: render a structured API error as its own
status code with the serialized payload as JSON body.  The content
length counts the body bytes (the payload is ASCII in every claim). -/
def api_error_response (err : ApiError) : ResponseHeader × String :=
  ({ status := err.status,
     headers := [("server", SERVER_NAME),
       ("date", "Sun, 06 Nov 1994 08:49:37 GMT"),
       ("content-length", toString err.payload.length),
       ("cache-control", "private, no-store"),
       ("content-type", "application/json")] },
   err.payload)

/-- pingora `error_resp::gen_error_response`: a bodyless generic
response for the given code (the pre-generated `HTTP_502_RESPONSE` and
`HTTP_400_RESPONSE` are exactly this at 502 and 400). -/
def gen_error_response (code : Nat) : ResponseHeader :=
  { status := code,
    headers := [("server", SERVER_NAME),
      ("date", "Sun, 06 Nov 1994 08:49:37 GMT"),
      ("content-length", "0"),
      ("cache-control", "private, no-store")] }

/-- The response `fail_to_proxy` renders for a classified code: the
structured API error rendering when the cause downcasts to one, else
the generic response for the code (pre-generated for 502 and 400); CORS
headers are then applied to either. -/
def fail_response (gw : Gateway) (e : PingoraError) (req_headers : List Header)
    (code : Nat) : ResponseHeader × Option String :=
  match as_api_error e with
  | some a =>
    let rb := api_error_response a
    (gw.cors_config.apply req_headers rb.1, some rb.2)
  | none =>
    let resp := match code with
      | 502 => gen_error_response 502
      | 400 => gen_error_response 400
      | _ => gen_error_response code
    (gw.cors_config.apply req_headers resp, none)

/-- `fail_to_proxy`: classify the error into a status code, and render
and write a response for it — except for downstream write/read/closed
errors, where the connection is already dead: nothing is written and
the sentinel 0 is returned.  The result is the returned code together
with the written response header and optional body (`none` when no
response is written). -/
def fail_to_proxy (gw : Gateway) (e : PingoraError) (req_headers : List Header) :
    Nat × Option (ResponseHeader × Option String) :=
  match e.etype with
  | .HTTPStatus c => (c, some (fail_response gw e req_headers c))
  | _ =>
    match e.esource with
    | .Upstream => (502, some (fail_response gw e req_headers 502))
    | .Downstream =>
      match e.etype with
      | .WriteError | .ReadError | .ConnectionClosed => (0, none)
      | _ => (400, some (fail_response gw e req_headers 400))
    | .Internal | .Unset => (500, some (fail_response gw e req_headers 500))

/-! ## Specification-side definitions -/

/-- Does the error carry an explicit HTTP status? -/
def ErrorType.is_http_status : ErrorType → Bool
  | .HTTPStatus _ => true
  | _ => false

/-- Is the error type one of the already-dead-connection transport
failures named by the spec (write error, read error, connection
closed)? -/
def ErrorType.is_dead_conn : ErrorType → Bool
  | .WriteError | .ReadError | .ConnectionClosed => true
  | _ => false

/-- The dead-connection case of the failure hook: no explicit HTTP
status, downstream origin, and a dead-connection error type. -/
def is_dead_conn_case (e : PingoraError) : Bool :=
  !e.etype.is_http_status && (decide (e.esource = .Downstream)) && e.etype.is_dead_conn

/-- The failure-hook status classification in the spec's words: an
explicit HTTP status is used as-is; otherwise upstream-origin errors
map to 502; downstream-origin dead-connection transport errors map to
the sentinel 0; other downstream errors map to 400; internal or
unclassified errors map to 500. -/
def spec_error_status (e : PingoraError) : Nat :=
  match e.etype with
  | .HTTPStatus c => c
  | et =>
    match e.esource with
    | .Upstream => 502
    | .Downstream => if et.is_dead_conn then 0 else 400
    | .Internal | .Unset => 500

/-- Is every element of `sub` contained in `sup`? -/
def contains_all (sup sub : List Header) : Bool :=
  sub.all (fun h => sup.any (fun g => decide (g = h)))

/-- C1: for every error reaching `fail_to_proxy`, the returned status
is the spec's classification (explicit status as-is, upstream 502,
downstream dead-connection sentinel 0, other downstream 400, internal
or unclassified 500), and no response is written exactly in the
dead-connection case. -/
theorem C1_fail_to_proxy_status_classification :
    ∀ (gw : Gateway) (e : PingoraError) (rh : List Header),
      (fail_to_proxy gw e rh).1 = spec_error_status e ∧
      ((fail_to_proxy gw e rh).2 = none ↔ is_dead_conn_case e = true) := by
  intro gw e rh
  obtain ⟨et, es, c⟩ := e
  cases et <;> cases es <;>
    simp [fail_to_proxy, spec_error_status, is_dead_conn_case,
      ErrorType.is_http_status, ErrorType.is_dead_conn]

/-- A sublist in the subset sense is contained in the superlist. -/
theorem contains_all_of_subset (sup sub : List Header) (h : ∀ x ∈ sub, x ∈ sup) :
    contains_all sup sub = true := by
  simp only [contains_all, List.all_eq_true, List.any_eq_true, decide_eq_true_eq]
  intro x hx
  exact ⟨x, h x hx, rfl⟩

/-- When the cause downcasts to a structured API error, the rendered
failure response is its own rendering with CORS headers applied,
whatever the classified code. -/
theorem fail_response_api (gw : Gateway) (e : PingoraError) (rh : List Header)
    (code : Nat) (a : ApiError) (h : as_api_error e = some a) :
    fail_response gw e rh code =
      (gw.cors_config.apply rh (api_error_response a).1, some (api_error_response a).2) := by
  unfold fail_response
  rw [h]

/-- When the cause is not a structured API error, the rendered failure
response is the generic response for the code with CORS headers
applied and no body. -/
theorem fail_response_generic (gw : Gateway) (e : PingoraError) (rh : List Header)
    (code : Nat) (h : as_api_error e = none) :
    fail_response gw e rh code = (gw.cors_config.apply rh (gen_error_response code), none) := by
  unfold fail_response
  rw [h]
  show (gw.cors_config.apply rh
      (match code with
        | 502 => gen_error_response 502
        | 400 => gen_error_response 400
        | _ => gen_error_response code), none) =
    (gw.cors_config.apply rh (gen_error_response code), none)
  split <;> rfl

/-- C2: for every error reaching the failure hook outside the
dead-connection case, when the cause is a structured API error the
written response carries the structured error's own status code, the
serialized structured payload as body, and the CORS headers; otherwise
the generic response for the classified code (with CORS headers, no
body) is written. -/
theorem C2_fail_to_proxy_api_error_rendering :
    ∀ (gw : Gateway) (e : PingoraError) (rh : List Header) (a : ApiError),
      is_dead_conn_case e = false →
      (as_api_error e = some a →
        (fail_to_proxy gw e rh).2.map (fun p => (p.1.status, p.2)) =
            some (a.status, some a.payload) ∧
        (fail_to_proxy gw e rh).2.map
            (fun p => contains_all p.1.headers (gw.cors_config.headers_for rh)) =
          some true) ∧
      (as_api_error e = none →
        (fail_to_proxy gw e rh).2 =
          some (gw.cors_config.apply rh (gen_error_response (fail_to_proxy gw e rh).1),
            none)) := by
  intro gw e rh a hdead
  constructor
  · intro hapi
    obtain ⟨et, es, c⟩ := e
    cases et <;> cases es <;>
      simp_all [fail_to_proxy, fail_response_api, is_dead_conn_case,
        ErrorType.is_http_status, ErrorType.is_dead_conn,
        api_error_response, CorsHeadersConfig.apply] <;>
      exact contains_all_of_subset _ _ (fun x hx => by simp [hx])
  · intro hnone
    obtain ⟨et, es, c⟩ := e
    cases et <;> cases es <;>
      simp_all [fail_to_proxy, fail_response_generic, is_dead_conn_case,
        ErrorType.is_http_status, ErrorType.is_dead_conn]

/-- The spec's source-only classification: upstream 502, downstream
400, internal or unset 500. -/
def spec_source_status : ErrorSource → Nat
  | .Upstream => 502
  | .Downstream => 400
  | .Internal => 500
  | .Unset => 500

/-- C9: when the cause is a structured API error but the error type is
not an explicit HTTP status (and the case is not the dead-connection
one), the code returned to the engine is the source-classified one
while the response header written to the client carries the structured
error's own status code. -/
theorem C9_fail_to_proxy_code_vs_written_status :
    ∀ (gw : Gateway) (e : PingoraError) (rh : List Header) (a : ApiError),
      e.etype.is_http_status = false →
      is_dead_conn_case e = false →
      as_api_error e = some a →
      (fail_to_proxy gw e rh).1 = spec_source_status e.esource ∧
      (fail_to_proxy gw e rh).2.map (fun p => p.1.status) = some a.status := by
  intro gw e rh a hst hdead hapi
  obtain ⟨et, es, c⟩ := e
  cases et <;> cases es <;>
    simp_all [fail_to_proxy, fail_response_api, spec_source_status, is_dead_conn_case,
      ErrorType.is_http_status, ErrorType.is_dead_conn,
      api_error_response, CorsHeadersConfig.apply]

/-! ## Concrete instances used by the witnesses and counterexamples -/

/-- A concrete CORS policy adding one recognizable header. -/
def corsEx : CorsHeadersConfig :=
  { headers_for := fun _ => [("access-control-allow-origin", "*")] }

/-- A concrete gateway: no authenticator, empty registry, empty router,
the concrete CORS policy, and the serialized health body `{}`. -/
def gwEx : Gateway :=
  { name := "api-gateway",
    auth := none,
    service_registry := { service_base_url := fun _ => none, service_auth_method := fun _ => none },
    router := fun _ _ => none,
    cors_config := corsEx,
    healthz_body := "\x7b\x7d",
    own_api_address := none }

/-- A concrete structured API error: status 404, payload
`{"code":"not_found"}`. -/
def apiEx404 : ApiError := { status := 404, payload := "\x7b\"code\":\"not_found\"\x7d" }

/-- A pingora error with unknown type, internal source, caused by the
structured API error. -/
def errC2 : PingoraError :=
  { etype := .UnknownError, esource := .Internal, cause := some (.api apiEx404) }

/-- C2 witness: the structured 404 error is rendered with status 404,
the exact JSON payload, and the CORS headers. -/
theorem C2_fail_to_proxy_api_error_rendering_witness :
    (fail_to_proxy gwEx errC2 []).2.map (fun p => (p.1.status, p.2)) =
        some (404, some "\x7b\"code\":\"not_found\"\x7d") ∧
      (fail_to_proxy gwEx errC2 []).2.map
          (fun p => contains_all p.1.headers (gwEx.cors_config.headers_for [])) =
        some true :=
  (C2_fail_to_proxy_api_error_rendering gwEx errC2 [] apiEx404 (by decide)).1 rfl

/-- A pingora error with unknown type, upstream source, caused by the
structured API error. -/
def errC9 : PingoraError :=
  { etype := .UnknownError, esource := .Upstream, cause := some (.api apiEx404) }

/-- C9 witness: the engine is told 502 (upstream classification) while
the client response header carries the structured error's 404. -/
theorem C9_fail_to_proxy_code_vs_written_status_witness :
    (fail_to_proxy gwEx errC9 []).1 = 502 ∧
      (fail_to_proxy gwEx errC9 []).2.map (fun p => p.1.status) = some 404 :=
  C9_fail_to_proxy_code_vs_written_status gwEx errC9 [] apiEx404 rfl (by decide) rfl

/-! ## The smuggler never touches the request URI -/

/-- `append_header` leaves the URI unchanged. -/
theorem append_header_uri (r : RequestHeader) (n v : String) (r2 : RequestHeader)
    (h : append_header r n v = .ok r2) : r2.uri = r.uri := by
  unfold append_header at h
  split at h
  · cases h; rfl
  · simp at h

/-- `append_smuggled` leaves the URI unchanged. -/
theorem append_smuggled_uri (pairs : List (String × String)) :
    ∀ (r r2 : RequestHeader), append_smuggled r pairs = .ok r2 → r2.uri = r.uri := by
  induction pairs with
  | nil =>
    intro r r2 h
    simp only [append_smuggled] at h
    cases h; rfl
  | cons p rest ih =>
    intro r r2 h
    obtain ⟨n, v⟩ := p
    simp only [append_smuggled] at h
    cases hh : append_header r n v with
    | error m => rw [hh] at h; simp at h
    | ok rr =>
      rw [hh] at h
      rw [ih rr r2 h, append_header_uri r n v rr hh]

/-- The protocol-token loop leaves the URI unchanged. -/
theorem process_protocols_uri (toks : List String) :
    ∀ (r : RequestHeader) (f : List String) (r2 : RequestHeader) (f2 : List String),
      process_protocols r f toks = .ok (r2, f2) → r2.uri = r.uri := by
  induction toks with
  | nil =>
    intro r f r2 f2 h
    simp only [process_protocols] at h
    cases h; rfl
  | cons t rest ih =>
    intro r f r2 f2 h
    simp only [process_protocols] at h
    split at h
    · split at h
      · simp at h
      · split at h
        · simp at h
        · split at h
          · simp at h
          · rename_i rr hsm
            rw [ih rr f r2 f2 h, append_smuggled_uri _ r rr hsm]
    · exact ih r (f ++ [t]) r2 f2 h

/-- Processing one header value leaves the URI unchanged. -/
theorem process_header_value_uri (r : RequestHeader) (v : String) (r2 : RequestHeader)
    (h : process_header_value r v = .ok r2) : r2.uri = r.uri := by
  unfold process_header_value at h
  split at h
  · cases hp : process_protocols r [] (split_and_trim v) with
    | error m => rw [hp] at h; simp at h
    | ok acc =>
      obtain ⟨rr, f⟩ := acc
      rw [hp] at h
      simp only [] at h
      split at h
      · cases h; exact process_protocols_uri _ r [] r2 f hp
      · rw [append_header_uri rr SEC_WEBSOCKET_PROTOCOL (String.intercalate ", " f) r2 h,
          process_protocols_uri _ r [] rr f hp]
  · simp at h

/-- Processing all header values leaves the URI unchanged. -/
theorem process_header_values_uri (vs : List String) :
    ∀ (r r2 : RequestHeader), process_header_values r vs = .ok r2 → r2.uri = r.uri := by
  induction vs with
  | nil =>
    intro r r2 h
    simp only [process_header_values] at h
    cases h; rfl
  | cons v rest ih =>
    intro r r2 h
    simp only [process_header_values] at h
    cases hv : process_header_value r v with
    | error m => rw [hv] at h; simp at h
    | ok rr =>
      rw [hv] at h
      rw [ih rr r2 h, process_header_value_uri r v rr hv]

/-- The websocket rewrite leaves the URI unchanged. -/
theorem update_request_uri (req req2 : RequestHeader)
    (h : update_request_from_websocket_protocol req = .ok req2) : req2.uri = req.uri := by
  unfold update_request_from_websocket_protocol at h
  split at h
  · cases h; rfl
  · exact process_header_values_uri (getAll req.headers SEC_WEBSOCKET_PROTOCOL)
      { req with headers := remove_header req.headers SEC_WEBSOCKET_PROTOCOL } req2 h

/-- The URI/Host rewrite sets the URI to the base-path-prepended one. -/
theorem rewritten_request_uri (gctx : GatewayCtx) (req : RequestHeader) :
    (rewritten_request gctx req).uri = gctx.prepend_base_path req.uri := by
  unfold rewritten_request
  cases gctx.upstream_host <;> rfl

/-- A successful filter tail leaves the URI unchanged. -/
theorem upstream_request_filter_tail_uri (gw : Gateway) (gctx : GatewayCtx)
    (fresh : String) (req3 req' : RequestHeader) (md : Option (CallMeta × CallDesc))
    (h : upstream_request_filter_tail gw gctx fresh req3 = .ok (req', md)) :
    req'.uri = req3.uri := by
  simp only [upstream_request_filter_tail] at h
  split at h
  · simp only [Except.ok.injEq, Prod.mk.injEq] at h
    rw [← h.1]
    rfl
  · split at h
    · simp at h
    · simp only [Except.ok.injEq, Prod.mk.injEq] at h
      rw [← h.1]
      rfl
    · simp only [Except.ok.injEq, Prod.mk.injEq] at h
      rw [← h.1]
      rfl

/-- A successful filter tail returns the `CallMeta` parsed from the
rewritten request's headers and a descriptor whose parent span pairs
the parsed trace id with the parsed parent span id, falling back to
the freshly generated one. -/
theorem upstream_request_filter_tail_span (gw : Gateway) (gctx : GatewayCtx)
    (fresh : String) (req3 req' : RequestHeader) (m : CallMeta) (desc : CallDesc)
    (h : upstream_request_filter_tail gw gctx fresh req3 = .ok (req', some (m, desc))) :
    m = CallMeta.parse_without_caller req3.headers ∧
      desc.parent_span = some (m.trace_id, m.parent_span_id.getD fresh) := by
  simp only [upstream_request_filter_tail] at h
  split at h
  · simp only [Except.ok.injEq, Prod.mk.injEq, Option.some.injEq] at h
    obtain ⟨-, hm, hd⟩ := h
    subst hm
    subst hd
    refine ⟨rfl, ?_⟩
    cases hps : (CallMeta.parse_without_caller req3.headers).parent_span_id <;>
      simp [hps]
  · split at h
    · simp at h
    · simp only [Except.ok.injEq, Prod.mk.injEq, Option.some.injEq] at h
      obtain ⟨-, hm, hd⟩ := h
      subst hm
      subst hd
      refine ⟨rfl, ?_⟩
      cases hps : (CallMeta.parse_without_caller req3.headers).parent_span_id <;>
        simp [hps]
    · simp only [Except.ok.injEq, Prod.mk.injEq, Option.some.injEq] at h
      obtain ⟨-, hm, hd⟩ := h
      subst hm
      subst hd
      refine ⟨rfl, ?_⟩
      cases hps : (CallMeta.parse_without_caller req3.headers).parent_span_id <;>
        simp [hps]

/-- C3: whenever the upstream-request-rewrite succeeds with a
per-request context, the request URI becomes the resolved upstream base
path with trailing slashes stripped followed by the original
path-and-query verbatim, with scheme and authority preserved; and in
particular URI `/widgets/1` with base path `/api/` rewrites to
`/api/widgets/1`. -/
theorem C3_uri_rewrite_prepends_base_path :
    (∀ (gw : Gateway) (upg : Bool) (fresh : String) (gctx : GatewayCtx)
        (req req' : RequestHeader) (md : Option (CallMeta × CallDesc)),
      upstream_request_filter gw upg fresh (some gctx) req = .ok (req', md) →
      req'.uri =
        { scheme := req.uri.scheme, authority := req.uri.authority,
          path_and_query :=
            some (trim_end_slashes gctx.upstream_base_path ++
              (req.uri.path_and_query.getD "")) }) ∧
    (GatewayCtx.mk "svc" "/api/" none).prepend_base_path
        { scheme := none, authority := none, path_and_query := some "/widgets/1" } =
      { scheme := none, authority := none, path_and_query := some "/api/widgets/1" } := by
  constructor
  · intro gw upg fresh gctx req req' md h
    simp only [upstream_request_filter] at h
    split at h
    · simp at h
    · rename_i req3 hws
      have h3 : req3.uri = (rewritten_request gctx req).uri := by
        cases upg with
        | false => simp at hws; rw [hws]
        | true => exact update_request_uri _ _ hws
      rw [upstream_request_filter_tail_uri gw gctx fresh req3 req' md h, h3,
        rewritten_request_uri]
      rfl
  · decide

/-- C7: with a per-request context present, when the parsed call
metadata carries no parent span id the outgoing call descriptor's
parent span is the freshly generated span id (paired with the trace
id); when it carries one, that same id is passed through unchanged. -/
theorem C7_parent_span_generated_or_passed_through :
    ∀ (gw : Gateway) (upg : Bool) (fresh : String) (gctx : GatewayCtx)
      (req req' : RequestHeader) (m : CallMeta) (desc : CallDesc),
      upstream_request_filter gw upg fresh (some gctx) req = .ok (req', some (m, desc)) →
      (m.parent_span_id = none → desc.parent_span = some (m.trace_id, fresh)) ∧
      (∀ sp, m.parent_span_id = some sp → desc.parent_span = some (m.trace_id, sp)) := by
  intro gw upg fresh gctx req req' m desc h
  simp only [upstream_request_filter] at h
  split at h
  · simp at h
  · rename_i req3 hws
    obtain ⟨-, hd⟩ := upstream_request_filter_tail_span gw gctx fresh req3 req' m desc h
    constructor
    · intro hnone
      rw [hd, hnone]
      rfl
    · intro sp hsp
      rw [hd, hsp]
      rfl

/-- C8: when the per-request context is absent, the upstream-request
rewrite returns the request entirely unchanged (and builds no call
descriptor), and the response rewrite returns the response headers
entirely unchanged (no CORS application). -/
theorem C8_no_context_hooks_are_noops :
    ∀ (gw : Gateway) (upg : Bool) (fresh : String) (req : RequestHeader)
      (rh : List Header) (resp : ResponseHeader),
      upstream_request_filter gw upg fresh none req = .ok (req, none) ∧
      response_filter gw none rh resp = resp := by
  intro gw upg fresh req rh resp
  exact ⟨rfl, rfl⟩

/-- A concrete per-request context: service `svc`, base path `/api/`,
no upstream host. -/
def gctxEx : GatewayCtx :=
  { upstream_service_name := "svc", upstream_base_path := "/api/", upstream_host := none }

/-- A concrete inbound request for `/widgets/1?q=2`. -/
def reqEx : RequestHeader :=
  { method := "GET",
    uri := { scheme := none, authority := none, path_and_query := some "/widgets/1?q=2" },
    headers := [] }

/-- The parsed call metadata of `reqEx` (no inbound tracing headers). -/
def mEx : CallMeta :=
  { trace_id := "synthesized-trace-id", parent_span_id := none, ext_correlation_id := none }

/-- The call descriptor the filter builds for `reqEx`. -/
def descEx : CallDesc :=
  { caller := .gateway "api-gateway",
    parent_span := some ("synthesized-trace-id", "span-1"),
    parent_event_id := none,
    ext_correlation_id := none,
    auth_user_id := none,
    auth_data := none,
    svc_auth_method := .noop }

/-- The rewritten request the filter produces for `reqEx`. -/
def reqEx2 : RequestHeader :=
  { method := "GET",
    uri := { scheme := none, authority := none, path_and_query := some "/api/widgets/1?q=2" },
    headers := [("x-encore-meta-caller", "gateway:api-gateway"),
      ("x-encore-meta-trace-id", "synthesized-trace-id"),
      ("x-encore-meta-span-id", "span-1")] }

/-- C3 witness: the concrete rewrite of `/widgets/1?q=2` under base path
`/api/` yields URI `/api/widgets/1?q=2`. -/
theorem C3_uri_rewrite_prepends_base_path_witness :
    reqEx2.uri =
      { scheme := none, authority := none,
        path_and_query := some "/api/widgets/1?q=2" } :=
  C3_uri_rewrite_prepends_base_path.1 gwEx false "span-1" gctxEx reqEx reqEx2
    (some (mEx, descEx)) rfl

/-- C7 witness: with no inbound parent span header, the descriptor for
`reqEx` carries the freshly generated span id `span-1`. -/
theorem C7_parent_span_generated_or_passed_through_witness :
    descEx.parent_span = some ("synthesized-trace-id", "span-1") :=
  (C7_parent_span_generated_or_passed_through gwEx false "span-1" gctxEx reqEx reqEx2
    mEx descEx rfl).1 rfl

/-- Decidable equality for `Except`, for evaluating concrete runs. -/
instance instDecEqExcept {e a : Type} [DecidableEq e] [DecidableEq a] :
    DecidableEq (Except e a) := fun x y =>
  match x, y with
  | .ok v, .ok w =>
    if h : v = w then .isTrue (congrArg Except.ok h)
    else .isFalse (fun hc => h (Except.ok.inj hc))
  | .error v, .error w =>
    if h : v = w then .isTrue (congrArg Except.error h)
    else .isFalse (fun hc => h (Except.error.inj hc))
  | .ok _, .error _ => .isFalse (fun hc => Except.noConfusion hc)
  | .error _, .ok _ => .isFalse (fun hc => Except.noConfusion hc)

/-- Appending a list of valid smuggled entries succeeds and appends
them in order. -/
theorem append_smuggled_ok (pairs : List (String × String)) :
    ∀ (r : RequestHeader), (∀ p ∈ pairs, header_pair_ok p = true) →
      append_smuggled r pairs = .ok { r with headers := r.headers ++ pairs } := by
  induction pairs with
  | nil =>
    intro r _
    simp [append_smuggled]
  | cons p rest ih =>
    intro r hok
    obtain ⟨n, v⟩ := p
    have hp : header_pair_ok (n, v) = true := hok (n, v) (by simp)
    have hrest : ∀ q ∈ rest, header_pair_ok q = true := fun q hq => hok q (by simp [hq])
    have hah : append_header r n v = .ok { r with headers := r.headers ++ [(n, v)] } := by
      unfold append_header
      rw [if_pos]
      simpa [header_pair_ok] using hp
    simp only [append_smuggled, hah]
    rw [ih { r with headers := r.headers ++ [(n, v)] } hrest]
    simp

/-- Stepping the token loop over a well-formed smuggled token appends
its decoded entries. -/
theorem process_protocols_cons_smuggled (r : RequestHeader) (f : List String)
    (rest : List String) (tok d : String) (bs : List Nat) (pairs : List (String × String))
    (hpre : starts_with_str tok AUTH_DATA_PREFIX = true)
    (hd : drop_chars tok ( AUTH_DATA_PREFIX.length) = d)
    (hdec : base64url_decode d = some bs)
    (hpar : parse_auth_headers bs = some pairs)
    (hok : ∀ p ∈ pairs, header_pair_ok p = true) :
    process_protocols r f (tok :: rest) =
      process_protocols { r with headers := r.headers ++ pairs } f rest := by
  simp [process_protocols, hpre, hd, hdec, hpar, append_smuggled_ok pairs r hok]

/-- Stepping the token loop over a genuine protocol token collects it. -/
theorem process_protocols_cons_genuine (r : RequestHeader) (f : List String)
    (rest : List String) (gen : String)
    (hpre : starts_with_str gen AUTH_DATA_PREFIX = false) :
    process_protocols r f (gen :: rest) = process_protocols r (f ++ [gen]) rest := by
  simp only [process_protocols]
  rw [hpre]
  simp

/-- Processing one header value holding a well-formed smuggled token
followed by one genuine token appends the decoded entries and
re-attaches the genuine token. -/
theorem process_header_value_smuggle_genuine (r : RequestHeader)
    (v tok gen d : String) (bs : List Nat) (pairs : List (String × String))
    (hv : header_value_to_str_ok v = true)
    (hsp : split_and_trim v = [tok, gen])
    (hpre : starts_with_str tok AUTH_DATA_PREFIX = true)
    (hd : drop_chars tok ( AUTH_DATA_PREFIX.length) = d)
    (hdec : base64url_decode d = some bs)
    (hpar : parse_auth_headers bs = some pairs)
    (hok : ∀ p ∈ pairs, header_pair_ok p = true)
    (hgen : starts_with_str gen AUTH_DATA_PREFIX = false)
    (hgv : header_value_ok gen = true) :
    process_header_value r v =
      .ok { r with headers := r.headers ++ pairs ++ [(SEC_WEBSOCKET_PROTOCOL, gen)] } := by
  unfold process_header_value
  rw [if_pos hv]
  rw [hsp, process_protocols_cons_smuggled r [] [gen] tok d bs pairs hpre hd hdec hpar hok,
    process_protocols_cons_genuine _ [] [] gen hgen]
  simp only [process_protocols]
  have hj : String.intercalate ", " [gen] = gen := rfl
  have hcond : (header_name_ok SEC_WEBSOCKET_PROTOCOL && header_value_ok gen) = true := by
    rw [hgv]
    decide
  simp [append_header, hj, hcond]

/-- Processing one header value holding only a well-formed smuggled
token appends the decoded entries and re-attaches nothing. -/
theorem process_header_value_smuggle_only (r : RequestHeader)
    (v tok d : String) (bs : List Nat) (pairs : List (String × String))
    (hv : header_value_to_str_ok v = true)
    (hsp : split_and_trim v = [tok])
    (hpre : starts_with_str tok AUTH_DATA_PREFIX = true)
    (hd : drop_chars tok ( AUTH_DATA_PREFIX.length) = d)
    (hdec : base64url_decode d = some bs)
    (hpar : parse_auth_headers bs = some pairs)
    (hok : ∀ p ∈ pairs, header_pair_ok p = true) :
    process_header_value r v = .ok { r with headers := r.headers ++ pairs } := by
  unfold process_header_value
  rw [if_pos hv]
  rw [hsp, process_protocols_cons_smuggled r [] [] tok d bs pairs hpre hd hdec hpar hok]
  simp [process_protocols]

/-- C4: for a request whose single `Sec-WebSocket-Protocol` header
holds a smuggled token (the reserved marker followed by data that
base64url-decodes and parses as a flat string-to-string object) next
to a genuine protocol token, the rewrite removes the header, appends
each decoded entry as a request header, and re-attaches the genuine
token as the comma-joined `Sec-WebSocket-Protocol` header; and a
request with no `Sec-WebSocket-Protocol` header is left untouched. -/
theorem C4_websocket_smuggle_roundtrip :
    (∀ (req : RequestHeader) (v tok gen d : String) (bs : List Nat)
        (pairs : List (String × String)),
      getAll req.headers SEC_WEBSOCKET_PROTOCOL = [v] →
      header_value_to_str_ok v = true →
      split_and_trim v = [tok, gen] →
      starts_with_str tok AUTH_DATA_PREFIX = true →
      drop_chars tok ( AUTH_DATA_PREFIX.length) = d →
      base64url_decode d = some bs →
      parse_auth_headers bs = some pairs →
      (∀ p ∈ pairs, header_pair_ok p = true) →
      starts_with_str gen AUTH_DATA_PREFIX = false →
      header_value_ok gen = true →
      update_request_from_websocket_protocol req =
        .ok { req with headers :=
          remove_header req.headers SEC_WEBSOCKET_PROTOCOL ++ pairs ++
            [(SEC_WEBSOCKET_PROTOCOL, gen)] }) ∧
    (∀ req : RequestHeader,
      getAll req.headers SEC_WEBSOCKET_PROTOCOL = [] →
      update_request_from_websocket_protocol req = .ok req) := by
  constructor
  · intro req v tok gen d bs pairs hga hv hsp hpre hd hdec hpar hok hgen hgv
    unfold update_request_from_websocket_protocol
    rw [hga]
    simp only [List.isEmpty_cons, Bool.false_eq_true, if_false, process_header_values,
      process_header_value_smuggle_genuine
        { req with headers := remove_header req.headers SEC_WEBSOCKET_PROTOCOL }
        v tok gen d bs pairs hv hsp hpre hd hdec hpar hok hgen hgv]
  · intro req h
    unfold update_request_from_websocket_protocol
    rw [h]
    simp

/-- C10: every successfully decoded smuggled entry is appended to the
outgoing request without removing or replacing any existing header —
every non-`Sec-WebSocket-Protocol` header of the original request is
still present, so an existing header with the same name as a smuggled
one coexists with it — and no (valid) header name is rejected: the
decoded entries end up in the headers whatever their names. -/
theorem C10_smuggled_entries_appended_without_replacing :
    ∀ (req : RequestHeader) (v tok d : String) (bs : List Nat)
      (pairs : List (String × String)),
      getAll req.headers SEC_WEBSOCKET_PROTOCOL = [v] →
      header_value_to_str_ok v = true →
      split_and_trim v = [tok] →
      starts_with_str tok AUTH_DATA_PREFIX = true →
      drop_chars tok ( AUTH_DATA_PREFIX.length) = d →
      base64url_decode d = some bs →
      parse_auth_headers bs = some pairs →
      (∀ p ∈ pairs, header_pair_ok p = true) →
      update_request_from_websocket_protocol req =
          .ok { req with headers :=
            remove_header req.headers SEC_WEBSOCKET_PROTOCOL ++ pairs } ∧
        (∀ p ∈ pairs, p ∈ remove_header req.headers SEC_WEBSOCKET_PROTOCOL ++ pairs) ∧
        (∀ h ∈ req.headers, nameEq h.1 SEC_WEBSOCKET_PROTOCOL = false →
          h ∈ remove_header req.headers SEC_WEBSOCKET_PROTOCOL ++ pairs) := by
  intro req v tok d bs pairs hga hv hsp hpre hd hdec hpar hok
  refine ⟨?_, ?_, ?_⟩
  · unfold update_request_from_websocket_protocol
    rw [hga]
    simp only [List.isEmpty_cons, Bool.false_eq_true, if_false, process_header_values,
      process_header_value_smuggle_only
        { req with headers := remove_header req.headers SEC_WEBSOCKET_PROTOCOL }
        v tok d bs pairs hv hsp hpre hd hdec hpar hok]
  · intro p hp
    exact List.mem_append_right _ hp
  · intro h hh hne
    refine List.mem_append_left _ ?_
    unfold remove_header
    rw [List.mem_filter]
    exact ⟨hh, by simp [hne]⟩

/-- A concrete upgrade request smuggling `{"X-Foo":"bar"}` alongside the
genuine protocol token `chat`. -/
def reqC4 : RequestHeader :=
  { method := "GET",
    uri := { scheme := none, authority := none, path_and_query := some "/ws" },
    headers := [("x-a", "1"),
      ("Sec-WebSocket-Protocol", "encore.dev.auth_data.eyJYLUZvbyI6ImJhciJ9, chat")] }

/-- The rewrite's output for `reqC4`. -/
def reqC4out : RequestHeader :=
  { method := "GET",
    uri := { scheme := none, authority := none, path_and_query := some "/ws" },
    headers := [("x-a", "1"), ("X-Foo", "bar"), ("sec-websocket-protocol", "chat")] }

/-- C4 witness: the concrete round trip yields header `X-Foo: bar` and
`Sec-WebSocket-Protocol: chat`. -/
theorem C4_websocket_smuggle_roundtrip_witness :
    update_request_from_websocket_protocol reqC4 = .ok reqC4out :=
  C4_websocket_smuggle_roundtrip.1 reqC4
    "encore.dev.auth_data.eyJYLUZvbyI6ImJhciJ9, chat"
    "encore.dev.auth_data.eyJYLUZvbyI6ImJhciJ9" "chat" "eyJYLUZvbyI6ImJhciJ9"
    [123, 34, 88, 45, 70, 111, 111, 34, 58, 34, 98, 97, 114, 34, 125]
    [("X-Foo", "bar")] rfl rfl rfl rfl rfl rfl rfl (by decide) rfl rfl

/-- A concrete upgrade request smuggling an `Authorization` header while
already carrying one. -/
def reqC10 : RequestHeader :=
  { method := "GET",
    uri := { scheme := none, authority := none, path_and_query := some "/ws" },
    headers := [("authorization", "Basic abc"),
      ("sec-websocket-protocol",
        "encore.dev.auth_data.eyJBdXRob3JpemF0aW9uIjoiQmVhcmVyIHh5eiJ9")] }

/-- The rewrite's output for `reqC10`: both credentials present. -/
def reqC10out : RequestHeader :=
  { method := "GET",
    uri := { scheme := none, authority := none, path_and_query := some "/ws" },
    headers := [("authorization", "Basic abc"), ("Authorization", "Bearer xyz")] }

/-- C10 witness: the smuggled `Authorization: Bearer xyz` is appended
and the pre-existing `authorization: Basic abc` is still present. -/
theorem C10_smuggled_entries_appended_without_replacing_witness :
    update_request_from_websocket_protocol reqC10 = .ok reqC10out ∧
      ("Authorization", "Bearer xyz") ∈
        remove_header reqC10.headers SEC_WEBSOCKET_PROTOCOL ++
          [(("Authorization" : String), ("Bearer xyz" : String))] ∧
      ("authorization", "Basic abc") ∈
        remove_header reqC10.headers SEC_WEBSOCKET_PROTOCOL ++
          [(("Authorization" : String), ("Bearer xyz" : String))] := by
  have h := C10_smuggled_entries_appended_without_replacing reqC10
    "encore.dev.auth_data.eyJBdXRob3JpemF0aW9uIjoiQmVhcmVyIHh5eiJ9"
    "encore.dev.auth_data.eyJBdXRob3JpemF0aW9uIjoiQmVhcmVyIHh5eiJ9"
    "eyJBdXRob3JpemF0aW9uIjoiQmVhcmVyIHh5eiJ9"
    [123, 34, 65, 117, 116, 104, 111, 114, 105, 122, 97, 116, 105, 111, 110, 34, 58,
      34, 66, 101, 97, 114, 101, 114, 32, 120, 121, 122, 34, 125]
    [("Authorization", "Bearer xyz")] rfl rfl rfl rfl rfl rfl rfl (by decide)
  exact ⟨h.1, h.2.1 ("Authorization", "Bearer xyz") (by decide),
    h.2.2 ("authorization", "Basic abc") (by decide) rfl⟩

/-- `nameEq` unfolded. -/
theorem nameEq_true_iff (a b : String) : nameEq a b = true ↔ to_lower a = to_lower b := by
  simp [nameEq]

/-- Inserting a differently-named header does not change `getAll`. -/
theorem getAll_insert_header_ne (l : List Header) (n v m : String)
    (hnm : nameEq n m = false) :
    getAll (insert_header l n v) m = getAll l m := by
  unfold getAll insert_header
  rw [List.filter_append]
  have h1 : List.filter (fun h => nameEq h.1 m) [(n, v)] = [] := by
    simp [hnm]
  rw [h1, List.append_nil, List.filter_filter]
  congr 1
  apply List.filter_congr
  intro x _
  cases hxm : nameEq x.1 m with
  | false => simp [hxm]
  | true =>
    have hxl : to_lower x.1 = to_lower m := (nameEq_true_iff _ _).mp hxm
    have hxn : nameEq x.1 n = false := by
      cases hcn : nameEq x.1 n with
      | false => rfl
      | true =>
        have h2 : to_lower x.1 = to_lower n := (nameEq_true_iff _ _).mp hcn
        have h3 : nameEq n m = true := (nameEq_true_iff _ _).mpr (h2 ▸ hxl)
        rw [h3] at hnm
        cases hnm
    simp [hxm, hxn]

/-- The URI/Host rewrite does not change the set of
`Sec-WebSocket-Protocol` occurrences. -/
theorem getAll_rewritten_request (gctx : GatewayCtx) (req : RequestHeader) :
    getAll (rewritten_request gctx req).headers SEC_WEBSOCKET_PROTOCOL =
      getAll req.headers SEC_WEBSOCKET_PROTOCOL := by
  unfold rewritten_request
  cases hh : gctx.upstream_host with
  | none => rfl
  | some host =>
    show getAll (insert_header req.headers "host" host) SEC_WEBSOCKET_PROTOCOL = _
    exact getAll_insert_header_ne _ _ _ _ (by decide)

/-- Does the data carried by a marker-prefixed token base64url-decode
and parse as a flat string-to-string object? -/
def smuggled_token_decodes (tok : String) : Bool :=
  match base64url_decode (drop_chars tok ( AUTH_DATA_PREFIX.length)) with
  | none => false
  | some bs => (parse_auth_headers bs).isSome

/-- A marker-prefixed token whose data fails to decode or parse fails
the whole websocket rewrite. -/
theorem update_request_malformed (r : RequestHeader) (v tok : String)
    (hga : getAll r.headers SEC_WEBSOCKET_PROTOCOL = [v])
    (hsp : split_and_trim v = [tok])
    (hpre : starts_with_str tok AUTH_DATA_PREFIX = true)
    (hbad : smuggled_token_decodes tok = false) :
    ∃ msg, update_request_from_websocket_protocol r = .error msg := by
  unfold update_request_from_websocket_protocol
  rw [hga]
  simp only [List.isEmpty_cons, Bool.false_eq_true, if_false]
  cases hvv : header_value_to_str_ok v with
  | false =>
    refine ⟨"header value is not visible ascii", ?_⟩
    simp [process_header_values, process_header_value, hvv]
  | true =>
    cases hdec : base64url_decode (drop_chars tok ( AUTH_DATA_PREFIX.length)) with
    | none =>
      refine ⟨"invalid base64 in smuggled protocol token", ?_⟩
      simp [process_header_values, process_header_value, hvv, hsp, process_protocols,
        hpre, hdec]
    | some bs =>
      have hpar : parse_auth_headers bs = none := by
        unfold smuggled_token_decodes at hbad
        rw [hdec] at hbad
        simpa using hbad
      refine ⟨"invalid smuggled header json", ?_⟩
      simp [process_header_values, process_header_value, hvv, hsp, process_protocols,
        hpre, hdec, hpar]

/-- The error `upstream_request_filter` produces when the websocket
rewrite fails: unknown type, unset source (`Error::because`). -/
def errSmuggle : PingoraError :=
  { etype := .UnknownError, esource := .Unset, cause := some .other_cause }

/-- A concrete upgrade request with a marker-prefixed token whose data
is not valid base64url. -/
def reqC5 : RequestHeader :=
  { method := "GET",
    uri := { scheme := none, authority := none, path_and_query := some "/ws" },
    headers := [("sec-websocket-protocol", "encore.dev.auth_data.!!!")] }

/-- C5 counterexample: the malformed smuggled token does fail the whole
rewrite, but the resulting failure is classified 500, not as a
400-class malformed-downstream-input response as the claim states. -/
theorem C5_counterexample_classified_500_not_400 :
    upstream_request_filter gwEx true "span-1" (some gctxEx) reqC5 = .error errSmuggle ∧
    (fail_to_proxy gwEx errSmuggle []).1 = 500 ∧
    ¬ (fail_to_proxy gwEx errSmuggle []).1 = 400 := by
  refine ⟨rfl, rfl, by decide⟩

/-- C5 (amended): a marker-prefixed `Sec-WebSocket-Protocol` token
whose remainder fails base64url decoding or JSON parsing fails the
whole request-rewrite step; the failure is wrapped as an unknown-type
error with unset source, which the failure hook classifies as 500
(internal/unclassified), not 400. -/
theorem C5_malformed_smuggle_fails_with_500 :
    ∀ (gw : Gateway) (fresh : String) (gctx : GatewayCtx) (req : RequestHeader)
      (rh : List Header) (v tok : String),
      getAll req.headers SEC_WEBSOCKET_PROTOCOL = [v] →
      split_and_trim v = [tok] →
      starts_with_str tok AUTH_DATA_PREFIX = true →
      smuggled_token_decodes tok = false →
      upstream_request_filter gw true fresh (some gctx) req = .error errSmuggle ∧
      errSmuggle.etype = .UnknownError ∧
      errSmuggle.esource = .Unset ∧
      (fail_to_proxy gw errSmuggle rh).1 = 500 := by
  intro gw fresh gctx req rh v tok hga hsp hpre hbad
  have hga2 : getAll (rewritten_request gctx req).headers SEC_WEBSOCKET_PROTOCOL = [v] := by
    rw [getAll_rewritten_request]
    exact hga
  obtain ⟨msg, hupd⟩ :=
    update_request_malformed (rewritten_request gctx req) v tok hga2 hsp hpre hbad
  refine ⟨?_, rfl, rfl, rfl⟩
  simp only [upstream_request_filter]
  simp [hupd, errSmuggle]

/-- C5 witness: the concrete malformed token exercises the amended
claim end to end. -/
theorem C5_malformed_smuggle_fails_with_500_witness :
    upstream_request_filter gwEx true "span-9" (some gctxEx) reqC5 = .error errSmuggle ∧
      errSmuggle.etype = .UnknownError ∧
      errSmuggle.esource = .Unset ∧
      (fail_to_proxy gwEx errSmuggle [("origin", "site")]).1 = 500 :=
  C5_malformed_smuggle_fails_with_500 gwEx "span-9" gctxEx reqC5 [("origin", "site")]
    "encore.dev.auth_data.!!!" "encore.dev.auth_data.!!!" rfl rfl rfl rfl

/-- A concrete OPTIONS request to the reserved health-check path. -/
def reqC6 : RequestHeader :=
  { method := "OPTIONS",
    uri := { scheme := none, authority := none, path_and_query := some "/__encore/healthz" },
    headers := [] }

/-- The health-check response written for `reqC6` under `gwEx`. -/
def respC6 : ResponseHeader :=
  { status := 200,
    headers := [("content-length", "2"), ("content-type", "application/json")] }

/-- C6 counterexample: an OPTIONS request to `/__encore/healthz` is
intercepted by the health-check branch first, so the written response
carries a JSON body (not a zero-length one) and none of the CORS
headers the policy would produce — contradicting the claim for that
path. -/
theorem C6_counterexample_options_healthz :
    request_filter gwEx reqC6 = .handled respC6 (some "\x7b\x7d") ∧
    gwEx.cors_config.headers_for reqC6.headers = [("access-control-allow-origin", "*")] ∧
    ¬ ("access-control-allow-origin", "*") ∈ respC6.headers ∧
    ¬ (some "\x7b\x7d" : Option String) = none := by
  refine ⟨rfl, rfl, by decide, by decide⟩

/-- C6 (amended): every OPTIONS request whose path is not the reserved
health-check path `/__encore/healthz` receives a 200 response carrying
the CORS headers and a zero-length body (`Content-Length: 0`, no body
written), and the outcome never depends on the router. -/
theorem C6_options_preflight_short_circuits :
    ∀ (gw : Gateway) (req : RequestHeader),
      req.method = "OPTIONS" →
      ¬ req.uri.path = "/__encore/healthz" →
      request_filter gw req =
          .handled
            { status := 200,
              headers := gw.cors_config.headers_for req.headers ++ [("content-length", "0")] }
            none ∧
        (∀ r1 r2, request_filter { gw with router := r1 } req =
          request_filter { gw with router := r2 } req) := by
  intro gw req hm hp
  constructor
  · unfold request_filter
    rw [if_neg hp, hm]
    simp [CorsHeadersConfig.apply]
  · intro r1 r2
    rfl

/-- C6 witness: a concrete OPTIONS request to `/widgets` receives the
200 CORS preflight response with `Content-Length: 0` and no body. -/
theorem C6_options_preflight_short_circuits_witness :
    request_filter gwEx
        { method := "OPTIONS",
          uri := { scheme := none, authority := none, path_and_query := some "/widgets" },
          headers := [] } =
      .handled
        { status := 200,
          headers := [("access-control-allow-origin", "*"), ("content-length", "0")] }
        none :=
  (C6_options_preflight_short_circuits gwEx
    { method := "OPTIONS",
      uri := { scheme := none, authority := none, path_and_query := some "/widgets" },
      headers := [] } rfl (by decide)).1
